import Mathlib

/-!
Verification of the codegen-agent core: the sandboxed execution and retry
orchestration subsystem. Definitions are shallow embeddings of the Python
source files `core/workflow.py`, `core/execution/runner.py`,
`core/execution/docker_runtime.py` and `core/llm_service.py`. External
effects (the LLM oracles, the container engine, the filesystem) are
modelled by explicit inputs and explicit state values.
-/

namespace CodegenAgent

/-! ## Data model

The record classes live in `core/models.py`, which is referenced by every
module but is not part of the tree; the records below are modelled from
the spec's data-model section and from the field names used at every call
site in the sources that are present.
-/

/-- Modelled from the spec: a caller-supplied variable value as seen by
`prepare_data_description` in `core/llm_service.py`. Only the distinction
pandas DataFrame / pandas Series / anything else matters to the sources;
a DataFrame carries the fields the description reads (shape, columns,
attrs, first rows) and a Series carries length, name and first values.
The pandas textual renderings are carried as strings. -/
inductive PyValue where
  | dataFrame (rows : Nat) (cols : Nat) (columns : List String) (attrs : String) (head3 : String)
  | series (length : Nat) (name : String) (head3 : String)
  | other
deriving DecidableEq, Repr

/-- Modelled from the spec: captured stdout text, stderr text and integer
exit status of one sandboxed run (`ExecutionResult` in `core/models.py`). -/
structure ExecutionResult where
  stdout : String
  stderr : String
  returncode : Int
deriving DecidableEq, Repr

/-- Modelled from the spec: the `success` flag is derived purely from the
exit status (`exit status == 0`). -/
def ExecutionResult.success (r : ExecutionResult) : Bool :=
  r.returncode == 0

/-- Modelled from the spec: the Assessment Oracle's verdict
(`CodeAssessmentResult` in `core/models.py`): success flag, should-retry
flag, analysis text, optional next-attempt plan and optional corrected
code. The two optional strings encode absence as the empty string, which
is what the loop's Python truthiness test `self.assessment.code` checks. -/
structure CodeAssessmentResult where
  success : Bool
  should_retry : Bool
  analysis : String
  plan : String
  code : String
deriving DecidableEq, Repr

/-- Modelled from the spec: the all-empty verdict used to initialise
`AgentWorkflow.assessment` before the first attempt
(`CodeAssessmentResult.empty_assessment` in `core/models.py`). -/
def CodeAssessmentResult.empty_assessment : CodeAssessmentResult :=
  ⟨false, false, "", "", ""⟩

/-- Modelled from the spec: the record of one completed attempt
(`ExecutionAssessmentHistoryItem` in `core/models.py`): the plan from
before the attempt, the code attempted, its execution result and the
verdict produced from it. -/
structure ExecutionAssessmentHistoryItem where
  plan : String
  code : String
  execution_result : ExecutionResult
  assessment : CodeAssessmentResult
deriving DecidableEq, Repr

/-- Modelled from the spec: the caller's request
(`CodeGenerationRequest` in `core/models.py`): the natural-language
request text plus the caller's variable mapping (name-value pairs in
insertion order, as a Python dict iterates). -/
structure CodeGenerationRequest where
  request_text : String
  user_variables : List (String × PyValue)
deriving DecidableEq, Repr

/-! ## Variable relevance filter (`core/execution/runner.py`)

`_find_used_variables` scans the code with the regular expression
`\b([a-zA-Z_][a-zA-Z0-9_]*)\b` and keeps the namespace entries whose key
is among the matches. A match of that pattern is a maximal run of word
characters (ASCII letters, digits, underscore) whose first character is a
letter or underscore: the leading `\b` rules out starting inside a run,
and the greedy `*` with the trailing `\b` extends every match to the end
of its run. The embedding covers ASCII code text (Python's `\b` widens
word characters to Unicode, which matters only for non-ASCII sources). -/

/-- A word character of the scan: ASCII letter, digit or underscore. -/
def isWordChar (c : Char) : Bool :=
  c.isAlpha || c.isDigit || c == '_'

/-- First character admissible for an identifier token: letter or underscore. -/
def isIdentStart (c : Char) : Bool :=
  c.isAlpha || c == '_'

/-- Splits a character list into its maximal runs of word characters,
returning the run touching the head of the list (possibly empty) apart
from the later runs. -/
def splitRunsAux : List Char → List Char × List (List Char)
  | [] => ([], [])
  | c :: cs =>
    let (cur, rs) := splitRunsAux cs
    if isWordChar c then (c :: cur, rs)
    else ([], if cur.isEmpty then rs else cur :: rs)

/-- The maximal runs of word characters of a string, in order. -/
def wordRuns (s : String) : List (List Char) :=
  let (cur, rs) := splitRunsAux s.data
  if cur.isEmpty then rs else cur :: rs

/-- The identifier tokens found by `re.findall` with the pattern
`\b([a-zA-Z_][a-zA-Z0-9_]*)\b`: the maximal word-character runs that
start with a letter or underscore. -/
def identTokens (code : String) : List String :=
  (wordRuns code).filterMap fun r =>
    match r with
    | [] => none
    | c :: _ => if isIdentStart c then some (String.mk r) else none

/-- Embedding of `_find_used_variables` (runner.py lines 24-28): keep the
namespace entries whose key occurs among the scanned tokens. The Python
builds a set of the matches and filters the dict comprehension-style,
preserving insertion order. -/
def find_used_variables {α : Type} (code : String) (namespace0 : List (String × α)) :
    List (String × α) :=
  namespace0.filter fun kv => (identTokens code).contains kv.1

/-- C3: the relevance filter returns a subset of the variable mapping, and
an entry is selected if and only if its key occurs as an identifier token
of the code text. -/
theorem find_used_variables_mem_iff {α : Type} (code : String)
    (namespace0 : List (String × α)) (k : String) (v : α) :
    (k, v) ∈ find_used_variables code namespace0 ↔
      (k, v) ∈ namespace0 ∧ k ∈ identTokens code := by
  simp [find_used_variables, List.mem_filter]

/-! ## Retry orchestrator (`core/workflow.py`, `AgentWorkflow.run`)

The loop's three external effects are modelled as oracles indexed by the
value of `code_generation_count` at the moment of the call: `execO k` is
the `ExecutionResult` returned by `sandbox_execute` for the k-th
execution (counting from 0) and `assessO k` is the verdict returned by
the k-th `assess_code_output` call. The UI calls have no effect on the
loop and are dropped. One loop iteration (workflow.py lines 98-130)
executes, increments the counter, assesses, appends the history item,
and then branches: return on success, return on a used-up budget,
replace the current code and continue when the verdict asks for a retry
and carries code, and otherwise fall through to the top of the
`while True` loop with the state unchanged (the source has no statement
after the `if` at line 128, so the unsuccessful no-retry verdict does
not leave the loop). -/

/-- Which return of `AgentWorkflow.run` ended the loop: `succeeded` for
the return at line 123 (verdict success), `exhausted` for the return at
line 126 (attempt budget used up). `stopped` is the spec's third
terminal (decline-to-retry); no return statement of the source maps to
it, and the embedding never produces it. -/
inductive Outcome where
  | succeeded
  | exhausted
  | stopped
deriving DecidableEq, Repr

/-- The mutable attributes of `AgentWorkflow` that the loop reads or
writes: the current code, the attempt counter, the latest verdict and
the history. -/
structure WorkflowState where
  current_code : String
  code_generation_count : Nat
  assessment : CodeAssessmentResult
  history : List ExecutionAssessmentHistoryItem
deriving DecidableEq, Repr

/-- The history item appended at workflow.py lines 111-118: the plan of
the verdict from before this attempt (`orig_plan`, read at line 105
before the assessor call), the code just executed, its execution result,
and the fresh verdict. -/
def historyItem (execO : Nat → ExecutionResult) (assessO : Nat → CodeAssessmentResult)
    (s : WorkflowState) : ExecutionAssessmentHistoryItem :=
  ⟨s.assessment.plan, s.current_code, execO s.code_generation_count,
    assessO s.code_generation_count⟩

/-- The state after one iteration's unconditional updates (workflow.py
lines 100-118): counter incremented, verdict stored, history item
appended, current code unchanged. -/
def stepState (execO : Nat → ExecutionResult) (assessO : Nat → CodeAssessmentResult)
    (s : WorkflowState) : WorkflowState :=
  ⟨s.current_code, s.code_generation_count + 1, assessO s.code_generation_count,
    s.history ++ [historyItem execO assessO s]⟩

/-- The continuation state of the retry branch (workflow.py line 129):
as `stepState`, with the current code replaced by the verdict's code. -/
def retryState (execO : Nat → ExecutionResult) (assessO : Nat → CodeAssessmentResult)
    (s : WorkflowState) : WorkflowState :=
  { stepState execO assessO s with current_code := (assessO s.code_generation_count).code }

theorem stepState_current_code (execO : Nat → ExecutionResult)
    (assessO : Nat → CodeAssessmentResult) (s : WorkflowState) :
    (stepState execO assessO s).current_code = s.current_code := rfl

theorem stepState_count (execO : Nat → ExecutionResult)
    (assessO : Nat → CodeAssessmentResult) (s : WorkflowState) :
    (stepState execO assessO s).code_generation_count = s.code_generation_count + 1 := rfl

theorem stepState_assessment (execO : Nat → ExecutionResult)
    (assessO : Nat → CodeAssessmentResult) (s : WorkflowState) :
    (stepState execO assessO s).assessment = assessO s.code_generation_count := rfl

theorem stepState_history (execO : Nat → ExecutionResult)
    (assessO : Nat → CodeAssessmentResult) (s : WorkflowState) :
    (stepState execO assessO s).history = s.history ++ [historyItem execO assessO s] := rfl

theorem retryState_current_code (execO : Nat → ExecutionResult)
    (assessO : Nat → CodeAssessmentResult) (s : WorkflowState) :
    (retryState execO assessO s).current_code = (assessO s.code_generation_count).code := rfl

theorem retryState_count (execO : Nat → ExecutionResult)
    (assessO : Nat → CodeAssessmentResult) (s : WorkflowState) :
    (retryState execO assessO s).code_generation_count = s.code_generation_count + 1 := rfl

theorem retryState_assessment (execO : Nat → ExecutionResult)
    (assessO : Nat → CodeAssessmentResult) (s : WorkflowState) :
    (retryState execO assessO s).assessment = assessO s.code_generation_count := rfl

theorem retryState_history (execO : Nat → ExecutionResult)
    (assessO : Nat → CodeAssessmentResult) (s : WorkflowState) :
    (retryState execO assessO s).history = s.history ++ [historyItem execO assessO s] := rfl

attribute [simp] stepState_current_code stepState_count stepState_assessment
  stepState_history retryState_current_code retryState_count retryState_assessment
  retryState_history

/-- Embedding of the `while True` loop of `AgentWorkflow.run`
(workflow.py lines 98-130). The branch order is the source's: success
first, then the budget check `code_generation_count >= max_code_generation`
(on the already incremented counter), then the retry test
`should_retry and code` (Python truthiness: the code string non-empty).
When the retry test fails the source reaches the end of the loop body
and iterates again with the same current code. -/
def runLoop (execO : Nat → ExecutionResult) (assessO : Nat → CodeAssessmentResult)
    (maxGen : Nat) (s : WorkflowState) : WorkflowState × Outcome :=
  let verdict := assessO s.code_generation_count
  if verdict.success then (stepState execO assessO s, Outcome.succeeded)
  else if maxGen ≤ s.code_generation_count + 1 then (stepState execO assessO s, Outcome.exhausted)
  else if verdict.should_retry && verdict.code != "" then
    runLoop execO assessO maxGen (retryState execO assessO s)
  else
    runLoop execO assessO maxGen (stepState execO assessO s)
termination_by maxGen - s.code_generation_count
decreasing_by
  all_goals simp; omega

/-- Embedding of `AgentWorkflow.run` (workflow.py lines 92-130): the
Generation Oracle is consulted once for the initial code (line 94), then
the loop runs from the freshly initialised state of `__init__`
(counter 0, empty verdict, empty history). -/
def runWorkflow (genCode : String) (execO : Nat → ExecutionResult)
    (assessO : Nat → CodeAssessmentResult) (maxGen : Nat) : WorkflowState × Outcome :=
  runLoop execO assessO maxGen ⟨genCode, 0, CodeAssessmentResult.empty_assessment, []⟩

/-- The loop grows the history and the attempt counter in lockstep: the
difference between history length and counter is preserved. -/
theorem runLoop_len_aux (execO : Nat → ExecutionResult) (assessO : Nat → CodeAssessmentResult)
    (maxGen : Nat) (d : Nat) :
    ∀ s : WorkflowState, maxGen - s.code_generation_count ≤ d →
    (runLoop execO assessO maxGen s).1.history.length + s.code_generation_count
      = (runLoop execO assessO maxGen s).1.code_generation_count + s.history.length := by
  induction d with
  | zero =>
    intro s hd
    rw [runLoop]
    split
    · simp <;> omega
    · split
      · simp <;> omega
      · omega
  | succ d ih =>
    intro s hd
    rw [runLoop]
    split
    · simp <;> omega
    · split
      · simp <;> omega
      · split
        · have h2 := ih (retryState execO assessO s) (by simp; omega)
          simp at h2 ⊢
          omega
        · have h2 := ih (stepState execO assessO s) (by simp; omega)
          simp at h2 ⊢
          omega

theorem runLoop_len (execO : Nat → ExecutionResult) (assessO : Nat → CodeAssessmentResult)
    (maxGen : Nat) (s : WorkflowState) :
    (runLoop execO assessO maxGen s).1.history.length + s.code_generation_count
      = (runLoop execO assessO maxGen s).1.code_generation_count + s.history.length :=
  runLoop_len_aux execO assessO maxGen (maxGen - s.code_generation_count) s le_rfl

/-- The loop runs at least one iteration, the counter never exceeds
`max maxGen (start + 1)`, and the loop only ever returns through its
success return or its budget return. -/
theorem runLoop_bound_aux (execO : Nat → ExecutionResult) (assessO : Nat → CodeAssessmentResult)
    (maxGen : Nat) (d : Nat) :
    ∀ s : WorkflowState, maxGen - s.code_generation_count ≤ d →
    s.code_generation_count < (runLoop execO assessO maxGen s).1.code_generation_count
      ∧ ((runLoop execO assessO maxGen s).1.code_generation_count ≤ maxGen
          ∨ (runLoop execO assessO maxGen s).1.code_generation_count
              = s.code_generation_count + 1)
      ∧ ((runLoop execO assessO maxGen s).2 = Outcome.succeeded
          ∨ (runLoop execO assessO maxGen s).2 = Outcome.exhausted) := by
  induction d with
  | zero =>
    intro s hd
    rw [runLoop]
    split
    · simp <;> omega
    · split
      · simp <;> omega
      · omega
  | succ d ih =>
    intro s hd
    rw [runLoop]
    split
    · simp <;> omega
    · split
      · simp <;> omega
      · split
        · obtain ⟨ha, hb, hc⟩ := ih (retryState execO assessO s) (by simp; omega)
          simp only [retryState_count] at ha hb
          exact ⟨by omega, by omega, hc⟩
        · obtain ⟨ha, hb, hc⟩ := ih (stepState execO assessO s) (by simp; omega)
          simp only [stepState_count] at ha hb
          exact ⟨by omega, by omega, hc⟩

theorem runLoop_bound (execO : Nat → ExecutionResult) (assessO : Nat → CodeAssessmentResult)
    (maxGen : Nat) (s : WorkflowState) :
    s.code_generation_count < (runLoop execO assessO maxGen s).1.code_generation_count
      ∧ ((runLoop execO assessO maxGen s).1.code_generation_count ≤ maxGen
          ∨ (runLoop execO assessO maxGen s).1.code_generation_count
              = s.code_generation_count + 1)
      ∧ ((runLoop execO assessO maxGen s).2 = Outcome.succeeded
          ∨ (runLoop execO assessO maxGen s).2 = Outcome.exhausted) :=
  runLoop_bound_aux execO assessO maxGen (maxGen - s.code_generation_count) s le_rfl

/-- The last history item of a finished run records the final verdict:
the item is appended before the loop decides which branch to take. -/
theorem runLoop_last_aux (execO : Nat → ExecutionResult) (assessO : Nat → CodeAssessmentResult)
    (maxGen : Nat) (d : Nat) :
    ∀ s : WorkflowState, maxGen - s.code_generation_count ≤ d →
    ((runLoop execO assessO maxGen s).1.history.getLast?).map (fun it => it.assessment)
      = some (runLoop execO assessO maxGen s).1.assessment := by
  induction d with
  | zero =>
    intro s hd
    rw [runLoop]
    split
    · simp [historyItem, List.getLast?_concat]
    · split
      · simp [historyItem, List.getLast?_concat]
      · omega
  | succ d ih =>
    intro s hd
    rw [runLoop]
    split
    · simp [historyItem, List.getLast?_concat]
    · split
      · simp [historyItem, List.getLast?_concat]
      · split
        · exact ih (retryState execO assessO s) (by simp; omega)
        · exact ih (stepState execO assessO s) (by simp; omega)

/-- Appending the iteration's history item preserves the correspondence
between history positions and oracle calls. -/
theorem step_idx_invariant (execO : Nat → ExecutionResult) (assessO : Nat → CodeAssessmentResult)
    (s : WorkflowState) (hlen : s.history.length = s.code_generation_count)
    (hidx : ∀ k : Nat, (s.history[k]?).map (fun it => (it.execution_result, it.assessment))
      = if k < s.code_generation_count then some (execO k, assessO k) else none) :
    ∀ k : Nat, ((s.history ++ [historyItem execO assessO s])[k]?).map
        (fun it => (it.execution_result, it.assessment))
      = if k < s.code_generation_count + 1 then some (execO k, assessO k) else none := by
  intro k
  rcases Nat.lt_trichotomy k s.history.length with hk | hk | hk
  · rw [List.getElem?_append_left hk, hidx k, if_pos (by omega), if_pos (by omega)]
  · subst hk
    simp [historyItem, hlen]
  · have h1 : (s.history ++ [historyItem execO assessO s])[k]? = none := by
      rw [List.getElem?_append_right (by omega)]
      apply List.getElem?_eq_none
      simp
      omega
    rw [h1, if_neg (by omega)]
    rfl

/-- The k-th history item of a run records exactly the k-th execution's
result and the k-th assessment call's verdict. -/
theorem runLoop_idx_aux (execO : Nat → ExecutionResult) (assessO : Nat → CodeAssessmentResult)
    (maxGen : Nat) (d : Nat) :
    ∀ s : WorkflowState, maxGen - s.code_generation_count ≤ d →
    s.history.length = s.code_generation_count →
    (∀ k : Nat, (s.history[k]?).map (fun it => (it.execution_result, it.assessment))
      = if k < s.code_generation_count then some (execO k, assessO k) else none) →
    (∀ k : Nat, ((runLoop execO assessO maxGen s).1.history[k]?).map
        (fun it => (it.execution_result, it.assessment))
      = if k < (runLoop execO assessO maxGen s).1.code_generation_count
          then some (execO k, assessO k) else none) := by
  induction d with
  | zero =>
    intro s hd hlen hidx
    rw [runLoop]
    split
    · intro k
      simp only [stepState_history, stepState_count]
      exact step_idx_invariant execO assessO s hlen hidx k
    · split
      · intro k
        simp only [stepState_history, stepState_count]
        exact step_idx_invariant execO assessO s hlen hidx k
      · omega
  | succ d ih =>
    intro s hd hlen hidx
    rw [runLoop]
    split
    · intro k
      simp only [stepState_history, stepState_count]
      exact step_idx_invariant execO assessO s hlen hidx k
    · split
      · intro k
        simp only [stepState_history, stepState_count]
        exact step_idx_invariant execO assessO s hlen hidx k
      · split
        · exact ih (retryState execO assessO s) (by simp; omega)
            (by simp [hlen]) (step_idx_invariant execO assessO s hlen hidx)
        · exact ih (stepState execO assessO s) (by simp; omega)
            (by simp [hlen]) (step_idx_invariant execO assessO s hlen hidx)

/-- Behaviour under a stalling assessor: every verdict is unsuccessful
and either does not ask for a retry or carries no code. The loop then
keeps the current code, iterates until the budget check fires, and ends
exhausted; every item it ever appends carries the unchanged code. -/
theorem runLoop_stall_aux (execO : Nat → ExecutionResult) (assessO : Nat → CodeAssessmentResult)
    (maxGen : Nat)
    (hstall : ∀ k : Nat, (assessO k).success = false ∧
      ((assessO k).should_retry = false ∨ (assessO k).code = "")) (d : Nat) :
    ∀ s : WorkflowState, maxGen - s.code_generation_count ≤ d →
    (runLoop execO assessO maxGen s).2 = Outcome.exhausted
      ∧ (runLoop execO assessO maxGen s).1.current_code = s.current_code
      ∧ (runLoop execO assessO maxGen s).1.code_generation_count
          = max maxGen (s.code_generation_count + 1)
      ∧ ((runLoop execO assessO maxGen s).1.history.all
          (fun it => decide (it ∈ s.history) || (it.code == s.current_code))) = true := by
  induction d with
  | zero =>
    intro s hd
    rw [runLoop]
    split
    · exact absurd (by assumption) (by simp [(hstall s.code_generation_count).1])
    · split
      · refine ⟨rfl, rfl, by simp; omega, ?_⟩
        simp [List.all_append, historyItem]
        exact fun x h => Or.inl h
      · omega
  | succ d ih =>
    intro s hd
    rw [runLoop]
    split
    · exact absurd (by assumption) (by simp [(hstall s.code_generation_count).1])
    · split
      · refine ⟨rfl, rfl, by simp; omega, ?_⟩
        simp [List.all_append, historyItem]
        exact fun x h => Or.inl h
      · split
        · rename_i hr
          rcases (hstall s.code_generation_count).2 with h | h <;> simp [h] at hr
        · obtain ⟨ho, hc, hcnt, hall⟩ := ih (stepState execO assessO s) (by simp; omega)
          refine ⟨ho, by rw [hc]; rfl, by rw [hcnt]; simp; omega, ?_⟩
          rw [List.all_eq_true] at hall ⊢
          intro it hit
          have h3 := hall it hit
          simp only [stepState_history, stepState_current_code] at h3
          simp only [Bool.or_eq_true, decide_eq_true_eq, List.mem_append,
            List.mem_singleton] at h3 ⊢
          rcases h3 with (h1 | h1) | h1
          · exact Or.inl h1
          · subst h1
            exact Or.inr (by simp [historyItem])
          · exact Or.inr h1

/-- C2: for any attempt budget N of at least 1 and any oracle behaviour,
the orchestrator performs at most N execute-then-assess cycles (the
history holds one item per cycle) and the run ends in exactly one of the
three terminal conditions; they exclude one another. -/
theorem workflow_bounded_and_terminal (genCode : String) (execO : Nat → ExecutionResult)
    (assessO : Nat → CodeAssessmentResult) (N : Nat) (hN : 1 ≤ N) :
    (runWorkflow genCode execO assessO N).1.history.length ≤ N
      ∧ ((runWorkflow genCode execO assessO N).2 = Outcome.succeeded
          ∧ (runWorkflow genCode execO assessO N).2 ≠ Outcome.exhausted
          ∧ (runWorkflow genCode execO assessO N).2 ≠ Outcome.stopped
        ∨ (runWorkflow genCode execO assessO N).2 = Outcome.exhausted
          ∧ (runWorkflow genCode execO assessO N).2 ≠ Outcome.succeeded
          ∧ (runWorkflow genCode execO assessO N).2 ≠ Outcome.stopped
        ∨ (runWorkflow genCode execO assessO N).2 = Outcome.stopped
          ∧ (runWorkflow genCode execO assessO N).2 ≠ Outcome.succeeded
          ∧ (runWorkflow genCode execO assessO N).2 ≠ Outcome.exhausted) := by
  obtain ⟨h1, h2, h3⟩ :=
    runLoop_bound execO assessO N ⟨genCode, 0, CodeAssessmentResult.empty_assessment, []⟩
  have h4 := runLoop_len execO assessO N ⟨genCode, 0, CodeAssessmentResult.empty_assessment, []⟩
  constructor
  · simp only [runWorkflow]
    simp at h1 h2 h4
    omega
  · rcases h3 with h | h
    · exact Or.inl ⟨h, by simp [runWorkflow, h], by simp [runWorkflow, h]⟩
    · exact Or.inr (Or.inl ⟨h, by simp [runWorkflow, h], by simp [runWorkflow, h]⟩)

/-- C2 witness: the bound at budget 1 with an always-happy assessor. -/
theorem workflow_bounded_and_terminal_witness :
    (runWorkflow "print(1)" (fun _ => ⟨"1\n", "", 0⟩)
        (fun _ => ⟨true, false, "ok", "", ""⟩) 1).1.history.length ≤ 1
      ∧ ((runWorkflow "print(1)" (fun _ => ⟨"1\n", "", 0⟩)
            (fun _ => ⟨true, false, "ok", "", ""⟩) 1).2 = Outcome.succeeded
          ∧ (runWorkflow "print(1)" (fun _ => ⟨"1\n", "", 0⟩)
              (fun _ => ⟨true, false, "ok", "", ""⟩) 1).2 ≠ Outcome.exhausted
          ∧ (runWorkflow "print(1)" (fun _ => ⟨"1\n", "", 0⟩)
              (fun _ => ⟨true, false, "ok", "", ""⟩) 1).2 ≠ Outcome.stopped
        ∨ (runWorkflow "print(1)" (fun _ => ⟨"1\n", "", 0⟩)
            (fun _ => ⟨true, false, "ok", "", ""⟩) 1).2 = Outcome.exhausted
          ∧ (runWorkflow "print(1)" (fun _ => ⟨"1\n", "", 0⟩)
              (fun _ => ⟨true, false, "ok", "", ""⟩) 1).2 ≠ Outcome.succeeded
          ∧ (runWorkflow "print(1)" (fun _ => ⟨"1\n", "", 0⟩)
              (fun _ => ⟨true, false, "ok", "", ""⟩) 1).2 ≠ Outcome.stopped
        ∨ (runWorkflow "print(1)" (fun _ => ⟨"1\n", "", 0⟩)
            (fun _ => ⟨true, false, "ok", "", ""⟩) 1).2 = Outcome.stopped
          ∧ (runWorkflow "print(1)" (fun _ => ⟨"1\n", "", 0⟩)
              (fun _ => ⟨true, false, "ok", "", ""⟩) 1).2 ≠ Outcome.succeeded
          ∧ (runWorkflow "print(1)" (fun _ => ⟨"1\n", "", 0⟩)
              (fun _ => ⟨true, false, "ok", "", ""⟩) 1).2 ≠ Outcome.exhausted) :=
  workflow_bounded_and_terminal "print(1)" (fun _ => ⟨"1\n", "", 0⟩)
    (fun _ => ⟨true, false, "ok", "", ""⟩) 1 (by decide)

/-- C5: after any run, the history holds exactly one item per executed
attempt (its length equals the attempt counter), the k-th item records
the k-th execution's result and the k-th verdict, and the last item
already records the final verdict: the append happens before the loop
decides how to end. -/
theorem workflow_history_records_attempts (genCode : String) (execO : Nat → ExecutionResult)
    (assessO : Nat → CodeAssessmentResult) (N : Nat) :
    (runWorkflow genCode execO assessO N).1.history.length
        = (runWorkflow genCode execO assessO N).1.code_generation_count
      ∧ (∀ k : Nat, ((runWorkflow genCode execO assessO N).1.history[k]?).map
            (fun it => (it.execution_result, it.assessment))
          = if k < (runWorkflow genCode execO assessO N).1.code_generation_count
              then some (execO k, assessO k) else none)
      ∧ ((runWorkflow genCode execO assessO N).1.history.getLast?).map
            (fun it => it.assessment)
          = some (runWorkflow genCode execO assessO N).1.assessment := by
  refine ⟨?_, ?_, ?_⟩
  · have h4 := runLoop_len execO assessO N ⟨genCode, 0, CodeAssessmentResult.empty_assessment, []⟩
    simp only [List.length_nil] at h4
    simp only [runWorkflow]
    omega
  · exact runLoop_idx_aux execO assessO N N
      ⟨genCode, 0, CodeAssessmentResult.empty_assessment, []⟩ (by omega) rfl (by simp)
  · exact runLoop_last_aux execO assessO N N
      ⟨genCode, 0, CodeAssessmentResult.empty_assessment, []⟩ (by omega)

/-- C1: exhibit for the missing stop. With a budget of 3, when the very
first verdict is unsuccessful and does not request a retry, the run does
not stop after the first attempt: it performs three execute-then-assess
cycles (three history items) and ends through the budget return. The
source's own comment at workflow.py line 132 ("If should_retry is False
or no code provided, stop.") sits after `continue` inside the `if` and
is unreachable; the loop body just falls through and repeats. -/
theorem workflow_decline_does_not_stop :
    (runWorkflow "print('A')" (fun _ => ⟨"A\n", "", 0⟩)
        (fun _ => ⟨false, false, "output does not meet the request", "", ""⟩) 3).2
        = Outcome.exhausted
      ∧ (runWorkflow "print('A')" (fun _ => ⟨"A\n", "", 0⟩)
          (fun _ => ⟨false, false, "output does not meet the request", "", ""⟩) 3).1.history.length
        = 3 := by
  obtain ⟨ho, hc, hcnt, hall⟩ := runLoop_stall_aux (fun _ => ⟨"A\n", "", 0⟩)
    (fun _ => ⟨false, false, "output does not meet the request", "", ""⟩) 3
    (fun k => ⟨rfl, Or.inl rfl⟩) 3
    ⟨"print('A')", 0, CodeAssessmentResult.empty_assessment, []⟩ (by omega)
  have h4 := runLoop_len (fun _ => ⟨"A\n", "", 0⟩)
    (fun _ => ⟨false, false, "output does not meet the request", "", ""⟩) 3
    ⟨"print('A')", 0, CodeAssessmentResult.empty_assessment, []⟩
  refine ⟨ho, ?_⟩
  simp only [runWorkflow]
  simp [Nat.max_def] at hcnt h4
  omega

/-- C6: exhibit for code reuse outside the retry branch. With a budget
of 2 and a first verdict that is unsuccessful and supplies no corrected
code, a second attempt still runs, and both executed attempts ran the
Generation Oracle's original code: the second attempt's code did not
come from the Assessment Oracle. -/
theorem workflow_reexecutes_generation_code :
    (runWorkflow "print('hello')" (fun _ => ⟨"hello\n", "", 0⟩)
        (fun _ => ⟨false, false, "wrong case", "", ""⟩) 2).1.history.length = 2
      ∧ ((runWorkflow "print('hello')" (fun _ => ⟨"hello\n", "", 0⟩)
          (fun _ => ⟨false, false, "wrong case", "", ""⟩) 2).1.history.all
          (fun it => it.code == "print('hello')")) = true := by
  obtain ⟨ho, hc, hcnt, hall⟩ := runLoop_stall_aux (fun _ => ⟨"hello\n", "", 0⟩)
    (fun _ => ⟨false, false, "wrong case", "", ""⟩) 2
    (fun k => ⟨rfl, Or.inl rfl⟩) 2
    ⟨"print('hello')", 0, CodeAssessmentResult.empty_assessment, []⟩ (by omega)
  have h4 := runLoop_len (fun _ => ⟨"hello\n", "", 0⟩)
    (fun _ => ⟨false, false, "wrong case", "", ""⟩) 2
    ⟨"print('hello')", 0, CodeAssessmentResult.empty_assessment, []⟩
  constructor
  · simp only [runWorkflow]
    simp [Nat.max_def] at hcnt h4
    omega
  · rw [List.all_eq_true] at hall ⊢
    intro it hit
    have h5 := hall it hit
    simp only [List.not_mem_nil, decide_False, Bool.false_or] at h5
    exact h5

/-! ## Isolation runtime (`core/execution/docker_runtime.py`)

The container engine is modelled by an explicit store of locally present
image tags; `docker image inspect` exits 0 exactly when the tag is in
the store, and a successful `docker build -t` adds it. Whether a build
subprocess exits 0 is an injected input. -/

/-- The inline Dockerfile `_DOCKERFILE_TEXT` (docker_runtime.py lines
77-89): the embedded minimal default image definition. -/
def _DOCKERFILE_TEXT : String :=
  "FROM python:3.13-slim\n\nRUN pip install --no-cache-dir \\\n    pandas \\\n    numpy \\\n    matplotlib \\\n    seaborn\n\nENV MPLCONFIGDIR=/tmp\nWORKDIR /work\n# Host will invoke: python -u /inputs/prelude.py\n"

/-- The local image store of the container engine. -/
structure DockerState where
  images : List String
deriving DecidableEq, Repr

/-- Which build specification a `docker build` invocation used: an
explicit Dockerfile path (with its parent directory as context), or the
synthesized temporary context holding `_DOCKERFILE_TEXT`. -/
inductive BuildSpec where
  | fromPath (path : String)
  | embeddedDefault
deriving DecidableEq, Repr

/-- One issued `docker build -t tag ...` invocation. -/
structure BuildCall where
  tag : String
  spec : BuildSpec
deriving DecidableEq, Repr

/-- Embedding of `DockerRuntime.__init__` (docker_runtime.py line 101):
the image identifier is the constructor argument when truthy, else the
`LLM_ANALYZE_RUNNER_IMAGE` environment value when set, else the fixed
default. This is the only environment lookup the runtime performs. -/
def runtimeImage (imageArg : Option String) (envRunnerImage : Option String) : String :=
  match imageArg with
  | some img => if img = "" then envRunnerImage.getD "llm-analyze-runner:py313" else img
  | none => envRunnerImage.getD "llm-analyze-runner:py313"

/-- Embedding of `DockerRuntime.ensure_image` (docker_runtime.py lines
107-150). Fast path: the image is already present, nothing happens.
Otherwise one build is issued: from the explicit Dockerfile path when
one is passed, else from the synthesized temp context with
`_DOCKERFILE_TEXT`. A failing build raises (modelled as `Except.error`
carrying the message head). Returns the resulting store and the list of
issued build invocations. -/
def ensure_image (image : String) (dockerfile : Option String) (buildOk : Bool)
    (st : DockerState) : Except String DockerState × List BuildCall :=
  if st.images.contains image then (Except.ok st, [])
  else
    match dockerfile with
    | some df =>
      if buildOk then (Except.ok ⟨st.images ++ [image]⟩, [⟨image, BuildSpec.fromPath df⟩])
      else (Except.error "Failed to build sandbox image (explicit dockerfile).",
        [⟨image, BuildSpec.fromPath df⟩])
    | none =>
      if buildOk then (Except.ok ⟨st.images ++ [image]⟩, [⟨image, BuildSpec.embeddedDefault⟩])
      else (Except.error "Failed to build sandbox image (temp context).",
        [⟨image, BuildSpec.embeddedDefault⟩])

/-- Two successive `ensure_image` calls for the same image, the second
performed only when the first returned normally (a raising first call
propagates, as in Python). Collects all issued build invocations. -/
def ensure_image_twice (image : String) (df1 df2 : Option String) (ok1 ok2 : Bool)
    (st : DockerState) : Except String DockerState × List BuildCall :=
  match ensure_image image df1 ok1 st with
  | (Except.error e, bs) => (Except.error e, bs)
  | (Except.ok st1, bs) =>
    let r2 := ensure_image image df2 ok2 st1
    (r2.1, bs ++ r2.2)

/-- C7: `ensure_image` is idempotent: two successive calls issue at most
one build invocation, and when the image is already present locally the
calls issue no build at all (both are no-ops). -/
theorem ensure_image_idempotent (image : String) (df1 df2 : Option String)
    (ok1 ok2 : Bool) (st : DockerState) :
    (ensure_image_twice image df1 df2 ok1 ok2 st).2.length ≤ 1
      ∧ (image ∈ st.images → (ensure_image_twice image df1 df2 ok1 ok2 st).2 = []) := by
  by_cases hmem : image ∈ st.images
  · have hc : st.images.contains image = true := by simpa using hmem
    constructor
    · simp [ensure_image_twice, ensure_image, hc, hmem]
    · intro _
      simp [ensure_image_twice, ensure_image, hc, hmem]
  · have hc : st.images.contains image = false := by simpa using hmem
    have hmem2 : image ∈ st.images ++ [image] := by simp
    constructor
    · cases df1 <;> cases ok1 <;>
        simp [ensure_image_twice, ensure_image, hc, hmem, hmem2]
    · intro h
      exact absurd h hmem

/-- C7 witness: with the image already present, two calls build nothing. -/
theorem ensure_image_idempotent_witness :
    (ensure_image_twice "llm-analyze-runner:py313" none none true true
      ⟨["llm-analyze-runner:py313"]⟩).2 = [] :=
  (ensure_image_idempotent "llm-analyze-runner:py313" none none true true
    ⟨["llm-analyze-runner:py313"]⟩).2 (by decide)

/-- The build specification `ensure_image` uses when it must build
(docker_runtime.py lines 113-136): the explicit path argument when
present, otherwise the embedded default. The function reads no
environment variable. -/
def resolvedBuildSpec (dockerfile : Option String) : BuildSpec :=
  match dockerfile with
  | some df => BuildSpec.fromPath df
  | none => BuildSpec.embeddedDefault

/-- Modelled from the spec: the resolution order the spec asserts for
the build specification, with a middle tier taken from an
environment-provided default Dockerfile path: explicit path argument,
else the environment path when set, else the embedded default. -/
def specResolvedBuildSpec (dockerfile : Option String) (envDockerfilePath : Option String) :
    BuildSpec :=
  match dockerfile with
  | some df => BuildSpec.fromPath df
  | none =>
    match envDockerfilePath with
    | some df => BuildSpec.fromPath df
    | none => BuildSpec.embeddedDefault

/-- C8 counterexample: with no explicit Dockerfile argument, the code
builds from the embedded default even when an environment-provided
default Dockerfile path (here "/etc/agent/Dockerfile") would be set: the
source consults no such environment variable, so the spec's middle
resolution tier does not exist. -/
theorem ensure_image_env_tier_missing :
    (ensure_image "llm-analyze-runner:py313" none true ⟨[]⟩).2
        = [⟨"llm-analyze-runner:py313", BuildSpec.embeddedDefault⟩]
      ∧ specResolvedBuildSpec none (some "/etc/agent/Dockerfile")
        = BuildSpec.fromPath "/etc/agent/Dockerfile"
      ∧ BuildSpec.embeddedDefault ≠ BuildSpec.fromPath "/etc/agent/Dockerfile" :=
  ⟨rfl, rfl, by decide⟩

/-- C8 amended: whenever `ensure_image` must build, the issued build
uses the explicit Dockerfile path argument when present and otherwise
the embedded minimal default definition; no environment-provided
Dockerfile path takes part (the only environment override,
`LLM_ANALYZE_RUNNER_IMAGE`, selects an alternate image identifier in the
constructor instead). -/
theorem ensure_image_build_spec (image : String) (dockerfile : Option String)
    (buildOk : Bool) (st : DockerState) (h : image ∉ st.images) :
    (ensure_image image dockerfile buildOk st).2
      = [⟨image, resolvedBuildSpec dockerfile⟩] := by
  have hc : st.images.contains image = false := by simpa using h
  cases dockerfile <;> cases buildOk <;> simp [ensure_image, hc, resolvedBuildSpec, h]

/-- C8 amended witness: building a missing image with no explicit path
uses the embedded default. -/
theorem ensure_image_build_spec_witness :
    (ensure_image "llm-analyze-runner:py313" none true ⟨[]⟩).2
      = [⟨"llm-analyze-runner:py313", resolvedBuildSpec none⟩] :=
  ensure_image_build_spec "llm-analyze-runner:py313" none true ⟨[]⟩ (by decide)

/-! ## Execution packager (`core/execution/runner.py`)

The filesystem is modelled as the list of existing paths. `execute`
creates the uniquely named workspace `tmp_root` with its `inputs`,
`outputs` and `inputs/vars` subtrees, writes `code.py`, `prelude.py` and
one `<name>.pkl` per selected variable, then ensures the image and runs
the container (both injected as `Except` outcomes, since both can
raise), and in the `finally` block removes the whole workspace tree with
`shutil.rmtree`. -/

/-- Failures `execute` can propagate: a failed image build
(`RuntimeError` from `ensure_image`) or an unreachable engine
(a raising `subprocess.run`). -/
inductive RunnerError where
  | buildFailure (msg : String)
  | transportFailure (msg : String)
deriving DecidableEq, Repr

/-- A completed `docker run` subprocess: captured stdout, stderr, exit
status. -/
structure CompletedProcess where
  stdout : String
  stderr : String
  returncode : Int
deriving DecidableEq, Repr

/-- Post-processing in `DockerRuntime.run` (docker_runtime.py lines
166-170): when the container exits nonzero and captured stderr is empty
(Python truthiness of the string), stdout is surfaced as stderr. -/
def runPostProcess (p : CompletedProcess) : CompletedProcess :=
  if p.returncode != 0 && p.stderr == "" then ⟨p.stdout, p.stdout, p.returncode⟩ else p

/-- `DockerRuntime.run` as the packager sees it: the raw subprocess
outcome (transport failures raise) with the stderr post-processing
applied. -/
def dockerRun (rawRun : Except RunnerError CompletedProcess) :
    Except RunnerError CompletedProcess :=
  rawRun.map runPostProcess

/-- The paths `execute` creates under the workspace root before running
(runner.py lines 45-63): the root, the three directories, the code
file, the copied bootstrap `prelude.py`, and one pickle per variable
selected by the relevance filter. -/
def workspacePaths {α : Type} (tmpRoot code : String) (vars : List (String × α)) :
    List String :=
  [tmpRoot, tmpRoot ++ "/inputs", tmpRoot ++ "/outputs", tmpRoot ++ "/inputs/vars",
    tmpRoot ++ "/inputs/code.py", tmpRoot ++ "/inputs/prelude.py"]
    ++ (find_used_variables code vars).map
        (fun kv => tmpRoot ++ "/inputs/vars/" ++ kv.1 ++ ".pkl")

/-- `shutil.rmtree(root)` on the path model: every path that is the root
or lies strictly under it disappears. -/
def rmtree (root : String) (fs : List String) : List String :=
  fs.filter (fun p => !(p == root || p.startsWith (root ++ "/")))

/-- Embedding of `execute` (runner.py lines 40-72). The staging writes
are total; `ensure_image` and the container run are injected `Except`
outcomes. The `try/finally` makes the `rmtree` of the workspace root
unconditional: it applies to the filesystem on every exit path, whether
the body produced a result or an error. -/
def execute {α : Type} (code : String) (vars : List (String × α)) (tmpRoot : String)
    (buildR : Except RunnerError Unit) (rawRun : Except RunnerError CompletedProcess)
    (fs : List String) : Except RunnerError ExecutionResult × List String :=
  let fs1 := fs ++ workspacePaths tmpRoot code vars
  let body : Except RunnerError ExecutionResult :=
    match buildR with
    | Except.error e => Except.error e
    | Except.ok _ =>
      match dockerRun rawRun with
      | Except.error e => Except.error e
      | Except.ok proc => Except.ok ⟨proc.stdout, proc.stderr, proc.returncode⟩
  (body, rmtree tmpRoot fs1)

/-- C4: after `execute` returns or raises — for every combination of
build and run outcomes, including raising ones — no path of the
workspace (the root or anything under it) exists. -/
theorem execute_removes_workspace {α : Type} (code : String)
    (vars : List (String × α)) (tmpRoot : String)
    (buildR : Except RunnerError Unit) (rawRun : Except RunnerError CompletedProcess)
    (fs : List String) :
    ((execute code vars tmpRoot buildR rawRun fs).2.all
      (fun p => !(p == tmpRoot || p.startsWith (tmpRoot ++ "/")))) = true := by
  rw [List.all_eq_true]
  intro p hp
  simp only [execute, rmtree] at hp
  exact (List.mem_filter.mp hp).2

/-- C9: when the container run completes with a nonzero exit status and
an empty captured stderr, the `ExecutionResult` that `execute` builds
reports the captured stdout text as its stderr. -/
theorem nonzero_exit_empty_stderr_reports_stdout {α : Type} (code : String)
    (vars : List (String × α)) (tmpRoot : String) (fs : List String)
    (p : CompletedProcess) (h1 : p.returncode ≠ 0) (h2 : p.stderr = "") :
    (execute code vars tmpRoot (Except.ok ()) (Except.ok p) fs).1
      = Except.ok ⟨p.stdout, p.stdout, p.returncode⟩ := by
  simp [execute, dockerRun, Except.map, runPostProcess, h1, h2]

/-- C9 witness: a run exiting 125 with empty stderr yields a result
whose stderr is the stdout text. -/
theorem nonzero_exit_empty_stderr_reports_stdout_witness :
    (execute "x = 1" ([] : List (String × Nat)) "/tmp/codegen_agent_w"
        (Except.ok ()) (Except.ok ⟨"boom", "", 125⟩) []).1
      = Except.ok ⟨"boom", "boom", 125⟩ :=
  nonzero_exit_empty_stderr_reports_stdout "x = 1" [] "/tmp/codegen_agent_w" []
    ⟨"boom", "", 125⟩ (by decide) rfl

/-! ## Data description for the oracles (`core/llm_service.py`) -/

/-- Whether `prepare_data_description` recognises the value: a pandas
DataFrame or Series. -/
def PyValue.isTabular : PyValue → Bool
  | PyValue.dataFrame _ _ _ _ _ => true
  | PyValue.series _ _ _ => true
  | PyValue.other => false

/-- The per-variable description block of
`LLMServiceBase.prepare_data_description` (llm_service.py lines
144-164): DataFrames and Series get a block, anything else contributes
nothing. Pandas textual renderings (shape tuple, column list, attrs,
heads) are carried by the value. -/
def describeVar (var_name : String) (v : PyValue) : Option String :=
  match v with
  | PyValue.dataFrame rows cols columns attrs head3 =>
    some ("Variable: " ++ var_name ++ "\n"
      ++ "Type: DataFrame\n"
      ++ "Shape: (" ++ toString rows ++ ", " ++ toString cols ++ ")\n"
      ++ "Columns: " ++ toString columns ++ "\n"
      ++ "Dataframe Description: " ++ attrs ++ "\n"
      ++ "Sample data (first 3 rows):\n" ++ head3 ++ "\n")
  | PyValue.series length name head3 =>
    some ("Variable: " ++ var_name ++ "\n"
      ++ "Type: Series\n"
      ++ "Length: " ++ toString length ++ "\n"
      ++ "Name: " ++ name ++ "\n"
      ++ "Sample data (first 3 values):\n" ++ head3 ++ "\n")
  | PyValue.other => none

/-- Embedding of `LLMServiceBase.prepare_data_description` (llm_service.py
lines 141-169): collect the description blocks of the DataFrame/Series
variables in order; if none, the fixed fallback text. -/
def prepare_data_description (user_variables : List (String × PyValue)) : String :=
  let descriptions := user_variables.filterMap (fun nv => describeVar nv.1 nv.2)
  if descriptions.isEmpty then "No data variables available."
  else String.intercalate "\n\n" descriptions

/-- The data description `CodeGenerationService.generate_code`
interpolates into its prompt (llm_service.py line 177). -/
def generation_data_description (request : CodeGenerationRequest) : String :=
  prepare_data_description request.user_variables

/-- The data description `AssessmentService.assess_code_output`
interpolates into its prompt (llm_service.py line 206). -/
def assessment_data_description (request : CodeGenerationRequest) : String :=
  prepare_data_description request.user_variables

/-- C10: both oracles receive the same data description; a variable
contributes a description block exactly when it is a DataFrame or a
Series (anything else is silently omitted); and when no variable is
tabular the description is exactly "No data variables available." -/
theorem data_description_tabular_only (request : CodeGenerationRequest) :
    generation_data_description request = prepare_data_description request.user_variables
      ∧ assessment_data_description request = prepare_data_description request.user_variables
      ∧ (∀ n : String, ∀ v : PyValue, (describeVar n v).isSome = v.isTabular)
      ∧ ((request.user_variables.all (fun nv => !nv.2.isTabular)) = true →
          prepare_data_description request.user_variables = "No data variables available.") := by
  refine ⟨rfl, rfl, ?_, ?_⟩
  · intro n v
    cases v <;> rfl
  · intro h
    have hnil : request.user_variables.filterMap (fun nv => describeVar nv.1 nv.2) = [] := by
      rw [List.filterMap_eq_nil_iff]
      intro nv hnv
      rw [List.all_eq_true] at h
      have h2 := h nv hnv
      cases hv : nv.2 <;> simp [hv, PyValue.isTabular] at h2 <;> simp [describeVar]
    simp [prepare_data_description, hnil]

/-- C10 witness: a mapping holding a single non-tabular variable yields
the fallback text. -/
theorem data_description_tabular_only_witness :
    prepare_data_description (CodeGenerationRequest.mk "plot something"
        [("x", PyValue.other)]).user_variables
      = "No data variables available." :=
  (data_description_tabular_only
    (CodeGenerationRequest.mk "plot something" [("x", PyValue.other)])).2.2.2 (by decide)

end CodegenAgent
